import Mathlib

/-!
Verification of the BSL safe-integral layer.

This file gives a shallow embedding of the Rust sources:
  * `integer.rs`    — the `Integer` capability set (checked arithmetic and
    the `into_*` lossless-or-none conversions), modelled per native width;
  * `safe_integral.rs` — `SafeIntegral<T>` with its poison / unchecked
    state machine, arithmetic, shift, bitwise, comparison and accessor
    operations;
  * `safe_idx.rs`   — the `SafeIdx` index type;
  * `convert.rs`    — the `to_*` conversion layer and `merge_umx_with_*`;
  * `assert.rs`     — the contract-violation primitive.

Machine integers are modelled as `Int` together with the bounds of the
native width (`usize` is 64-bit wide: `integer.rs` asserts
`usize::MAX >= u64::MAX` and the TODO note says the code assumes exactly
that).  The `cfg(debug_assertions)` / release split is modelled by a
`dbg : Bool` parameter.  `bsl::assert` diverges in debug builds and is a
no-op in release builds, so a read that can hit an assert is modelled as
an `Option` result: `none` is a debug-mode panic.
-/

namespace BSL

/-- The nine native integer widths implemented in `integer.rs`.
`umx` is `usize`, assumed 64-bit wide by the source. -/
inductive Ty where
  | i8 | i16 | i32 | i64 | u8 | u16 | u32 | u64 | umx
deriving DecidableEq, Repr

namespace Ty

/-- Predicate `isSigned t` is true on the signed widths (`SignedInteger` impls). -/
def isSigned : Ty → Bool
  | .i8 | .i16 | .i32 | .i64 => true
  | _ => false

/-- Rust `T::MIN` for each width. -/
def minVal : Ty → Int
  | .i8 => -128
  | .i16 => -32768
  | .i32 => -2147483648
  | .i64 => -9223372036854775808
  | _ => 0

/-- Rust `T::MAX` for each width. -/
def maxVal : Ty → Int
  | .i8 => 127
  | .i16 => 32767
  | .i32 => 2147483647
  | .i64 => 9223372036854775807
  | .u8 => 255
  | .u16 => 65535
  | .u32 => 4294967295
  | .u64 => 18446744073709551615
  | .umx => 18446744073709551615

/-- The value `2 ^ bits` for each width. -/
def modulus : Ty → Int
  | .i8 | .u8 => 256
  | .i16 | .u16 => 65536
  | .i32 | .u32 => 4294967296
  | .i64 | .u64 | .umx => 18446744073709551616

/-- Bit width. -/
def bits : Ty → Nat
  | .i8 | .u8 => 8
  | .i16 | .u16 => 16
  | .i32 | .u32 => 32
  | .i64 | .u64 | .umx => 64

/-- Truth of: `v` is representable in width `t`. -/
def inRange (t : Ty) (v : Int) : Prop :=
  t.minVal ≤ v ∧ v ≤ t.maxVal

instance (t : Ty) (v : Int) : Decidable (t.inRange v) :=
  inferInstanceAs (Decidable (_ ∧ _))

/-- The value produced by a Rust `as` cast into width `t`
(two's-complement truncation). -/
def wrap (t : Ty) (v : Int) : Int :=
  if t.isSigned then (v - t.minVal) % t.modulus + t.minVal
  else v % t.modulus

end Ty

/-!
Checked arithmetic primitives.  These model Rust's `checked_add`,
`checked_sub`, `checked_mul`, `checked_div`, `checked_rem`,
`checked_neg` on the native width `t`: `none` exactly when the host
primitive returns `None` (overflow, or a zero right-hand side for
division and remainder).  Rust division truncates toward zero
(`Int.tdiv` / `Int.tmod`).
-/

/-- Rust `i.add_checked(rhs)` (`integer.rs`, per-width impls). -/
def addChecked (t : Ty) (a b : Int) : Option Int :=
  if t.inRange (a + b) then some (a + b) else none

/-- Rust `i.sub_checked(rhs)`. -/
def subChecked (t : Ty) (a b : Int) : Option Int :=
  if t.inRange (a - b) then some (a - b) else none

/-- Rust `i.mul_checked(rhs)`. -/
def mulChecked (t : Ty) (a b : Int) : Option Int :=
  if t.inRange (a * b) then some (a * b) else none

/-- Rust `i.div_checked(rhs)`: `None` on a zero divisor or when the quotient
overflows (`T::MIN / -1`). -/
def divChecked (t : Ty) (a b : Int) : Option Int :=
  if b = 0 then none
  else if t.inRange (Int.tdiv a b) then some (Int.tdiv a b) else none

/-- Rust `i.rem_checked(rhs)`: `None` on a zero divisor or when the
corresponding division overflows. -/
def remChecked (t : Ty) (a b : Int) : Option Int :=
  if b = 0 then none
  else if t.inRange (Int.tdiv a b) then some (Int.tmod a b) else none

/-- Rust `i.neg_checked()` (signed widths only). -/
def negChecked (t : Ty) (a : Int) : Option Int :=
  if t.inRange (-a) then some (-a) else none

/-- Rust `i.shl_wrapping(rhs)`: Rust `wrapping_shl`, shift amount taken
mod the bit width, shifted-out bits discarded. -/
def shlWrapping (t : Ty) (a : Int) (r : Int) : Int :=
  (a * 2 ^ (r.toNat % t.bits)) % t.modulus

/-- Rust `i.shr_wrapping(rhs)`: Rust `wrapping_shr` on an unsigned width. -/
def shrWrapping (t : Ty) (a : Int) (r : Int) : Int :=
  a / 2 ^ (r.toNat % t.bits)

/-!
`SafeIntegral<T>` (`safe_integral.rs`).  The struct carries the stored
raw value and the `poisoned` / `unchecked` flags.  The width `T` is
passed to the operations that need the checked primitives as a `Ty`
argument; the build mode (`cfg(debug_assertions)`) is the `dbg`
argument.
-/

/-- The `SafeIntegral<T>` struct: `m_val`, `m_poisoned`, `m_unchecked`. -/
structure SafeIntegral where
  m_val : Int
  m_poisoned : Bool
  m_unchecked : Bool
deriving DecidableEq, Repr

namespace SafeIntegral

/-- Rust `update_poisoned`: ors in the new poison state; debug builds also
force the unchecked flag. -/
def update_poisoned (dbg : Bool) (s : SafeIntegral) (poisoned : Bool) : SafeIntegral :=
  if dbg then
    { s with m_poisoned := s.m_poisoned || poisoned, m_unchecked := true }
  else
    { s with m_poisoned := s.m_poisoned || poisoned }

/-- Rust `mark_as_unchecked` (debug builds only; no-op in release). -/
def mark_as_unchecked (dbg : Bool) (s : SafeIntegral) : SafeIntegral :=
  if dbg then { s with m_unchecked := true } else s

/-- Rust `mark_as_checked_if_valid`: debug builds set
`m_unchecked = m_poisoned`; release builds do nothing. -/
def mark_as_checked_if_valid (dbg : Bool) (s : SafeIntegral) : SafeIntegral :=
  if dbg then { s with m_unchecked := s.m_poisoned } else s

/-- Rust `SafeIntegral::new(val)`: not poisoned, not unchecked. -/
def new (val : Int) : SafeIntegral :=
  { m_val := val, m_poisoned := false, m_unchecked := false }

/-- Rust `SafeIntegral::failure()`: default value, poisoned and unchecked. -/
def failure : SafeIntegral :=
  { m_val := 0, m_poisoned := true, m_unchecked := true }

/-- Rust `new_with_flags_from(val, flags)`: the given value with the flags
inherited from `flags` (possibly of a different width). -/
def new_with_flags_from (val : Int) (flags : SafeIntegral) : SafeIntegral :=
  { m_val := val, m_poisoned := flags.m_poisoned, m_unchecked := flags.m_unchecked }

/-- Rust `new_from_option_with_flags_from(val, flags)`: inherit the flags on
`Some`, force poisoned + unchecked on `None`. -/
def new_from_option_with_flags_from (val : Option Int) (flags : SafeIntegral) :
    SafeIntegral :=
  match val with
  | some v =>
      { m_val := v, m_poisoned := flags.m_poisoned, m_unchecked := flags.m_unchecked }
  | none => { m_val := 0, m_poisoned := true, m_unchecked := true }

/-- Rust `max_value()` for width `t`. -/
def max_value (t : Ty) : SafeIntegral := new t.maxVal

/-- Rust `min_value()` for width `t`. -/
def min_value (t : Ty) : SafeIntegral := new t.minVal

/-- Rust `magic_0()`. -/
def magic_0 : SafeIntegral := new 0

/-- Rust `magic_1()`. -/
def magic_1 : SafeIntegral := new 1

/-- Rust `magic_neg_1()` (signed widths). -/
def magic_neg_1 : SafeIntegral := new (-1)

/-- Rust `is_invalid()`: pure poison query, no side effect. -/
def is_invalid (s : SafeIntegral) : Bool := s.m_poisoned

/-- Rust `is_valid()`: `!is_invalid()`. -/
def is_valid (s : SafeIntegral) : Bool := !s.is_invalid

/-- Rust `get_with_sloc`: the contract-checked read.  In debug builds the
first assert fires on a poisoned value and the second
(`verify_poison_has_been_checked`) on an unchecked one; `bsl::assert`
diverges in debug builds, so those paths yield `none`.  In release
builds both asserts are no-ops and the stored value is returned. -/
def get_with_sloc (dbg : Bool) (s : SafeIntegral) : Option Int :=
  if dbg then
    if s.m_poisoned then none
    else if s.m_unchecked then none
    else some s.m_val
  else some s.m_val

/-- Rust `get()`: `get_with_sloc(here())`. -/
def get (dbg : Bool) (s : SafeIntegral) : Option Int := get_with_sloc dbg s

/-- Rust `is_pos()`: contract-checked, then `m_val > T::magic_0()`. -/
def is_pos (dbg : Bool) (s : SafeIntegral) : Option Bool :=
  if dbg then
    if s.m_poisoned then none
    else if s.m_unchecked then none
    else some (decide (0 < s.m_val))
  else some (decide (0 < s.m_val))

/-- Rust `is_zero()`: contract-checked, then `m_val == T::magic_0()`. -/
def is_zero (dbg : Bool) (s : SafeIntegral) : Option Bool :=
  if dbg then
    if s.m_poisoned then none
    else if s.m_unchecked then none
    else some (decide (s.m_val = 0))
  else some (decide (s.m_val = 0))

/-- Rust `is_neg()` (signed widths): contract-checked, then
`m_val < T::magic_0()`. -/
def is_neg (dbg : Bool) (s : SafeIntegral) : Option Bool :=
  if dbg then
    if s.m_poisoned then none
    else if s.m_unchecked then none
    else some (decide (s.m_val < 0))
  else some (decide (s.m_val < 0))

/-- Rust `is_poisoned(&mut self)`: runs `mark_as_checked_if_valid` and
returns the poison flag; the pair is (returned bool, updated self). -/
def is_poisoned (dbg : Bool) (s : SafeIntegral) : Bool × SafeIntegral :=
  let s' := mark_as_checked_if_valid dbg s
  (s'.m_poisoned, s')

/-- Rust `checked()`: debug builds assert on a poisoned value (diverging),
otherwise return a copy with `m_unchecked` cleared; release builds
return `*self`. -/
def checked (dbg : Bool) (s : SafeIntegral) : Option SafeIntegral :=
  if dbg then
    if s.m_poisoned then none
    else some { s with m_unchecked := false }
  else some s

/-- Rust `is_unchecked()`: the flag in debug builds, always false in
release builds. -/
def is_unchecked (dbg : Bool) (s : SafeIntegral) : Bool :=
  if dbg then s.m_unchecked else false

/-- Rust `is_checked()`: `!is_unchecked()`. -/
def is_checked (dbg : Bool) (s : SafeIntegral) : Bool :=
  !s.is_unchecked dbg

/-- Rust `PartialEq for SafeIntegral`: both sides are read through
`get_with_sloc`, so a panic in either read propagates. -/
def eq_si (dbg : Bool) (a b : SafeIntegral) : Option Bool :=
  (a.get_with_sloc dbg).bind fun x =>
    (b.get_with_sloc dbg).map fun y => decide (x = y)

/-- Rust `PartialEq<T> for SafeIntegral`: only the safe side is read through
`get_with_sloc`. -/
def eq_raw (dbg : Bool) (a : SafeIntegral) (rhs : Int) : Option Bool :=
  (a.get_with_sloc dbg).map fun x => decide (x = rhs)

/-- Rust `PartialOrd for SafeIntegral`: `Some(self.get().cmp(&rhs.get()))`,
with panics from the reads propagated. -/
def cmp_si (dbg : Bool) (a b : SafeIntegral) : Option Ordering :=
  (a.get_with_sloc dbg).bind fun x =>
    (b.get_with_sloc dbg).map fun y => compare x y

/-- Rust `PartialOrd<T> for SafeIntegral`. -/
def cmp_raw (dbg : Bool) (a : SafeIntegral) (rhs : Int) : Option Ordering :=
  (a.get_with_sloc dbg).map fun x => compare x rhs

/-- Rust `max(rhs)`: `failure()` if either operand is invalid, otherwise
`*self` when `*self > rhs` else `rhs`.  The `>` goes through
`partial_cmp`, whose reads can panic in debug builds. -/
def max_si (dbg : Bool) (a b : SafeIntegral) : Option SafeIntegral :=
  if a.is_invalid then some failure
  else if b.is_invalid then some failure
  else (cmp_si dbg a b).map fun o => if o = .gt then a else b

/-- Rust `min(rhs)`: as `max`, with `<`. -/
def min_si (dbg : Bool) (a b : SafeIntegral) : Option SafeIntegral :=
  if a.is_invalid then some failure
  else if b.is_invalid then some failure
  else (cmp_si dbg a b).map fun o => if o = .lt then a else b

/-- Rust `AddAssign for SafeIntegral` (safe right-hand side): on success the
value is stored and the right operand's poison is merged; on failure
poison is forced.  The binary `Add` clones and delegates here, so it is
the same function. -/
def add_assign (dbg : Bool) (t : Ty) (s rhs : SafeIntegral) : SafeIntegral :=
  match addChecked t s.m_val rhs.m_val with
  | some val => update_poisoned dbg { s with m_val := val } rhs.is_invalid
  | none => update_poisoned dbg s true

/-- Rust `AddAssign<T> for SafeIntegral` (raw right-hand side): on success
the value is stored and the result is marked unchecked; on failure
poison is forced. -/
def add_assign_raw (dbg : Bool) (t : Ty) (s : SafeIntegral) (rhs : Int) : SafeIntegral :=
  match addChecked t s.m_val rhs with
  | some val => mark_as_unchecked dbg { s with m_val := val }
  | none => update_poisoned dbg s true

/-- Rust `SubAssign for SafeIntegral`. -/
def sub_assign (dbg : Bool) (t : Ty) (s rhs : SafeIntegral) : SafeIntegral :=
  match subChecked t s.m_val rhs.m_val with
  | some val => update_poisoned dbg { s with m_val := val } rhs.is_invalid
  | none => update_poisoned dbg s true

/-- Rust `SubAssign<T> for SafeIntegral`. -/
def sub_assign_raw (dbg : Bool) (t : Ty) (s : SafeIntegral) (rhs : Int) : SafeIntegral :=
  match subChecked t s.m_val rhs with
  | some val => mark_as_unchecked dbg { s with m_val := val }
  | none => update_poisoned dbg s true

/-- Rust `MulAssign for SafeIntegral`. -/
def mul_assign (dbg : Bool) (t : Ty) (s rhs : SafeIntegral) : SafeIntegral :=
  match mulChecked t s.m_val rhs.m_val with
  | some val => update_poisoned dbg { s with m_val := val } rhs.is_invalid
  | none => update_poisoned dbg s true

/-- Rust `MulAssign<T> for SafeIntegral`. -/
def mul_assign_raw (dbg : Bool) (t : Ty) (s : SafeIntegral) (rhs : Int) : SafeIntegral :=
  match mulChecked t s.m_val rhs with
  | some val => mark_as_unchecked dbg { s with m_val := val }
  | none => update_poisoned dbg s true

/-- Rust `DivAssign for SafeIntegral`. -/
def div_assign (dbg : Bool) (t : Ty) (s rhs : SafeIntegral) : SafeIntegral :=
  match divChecked t s.m_val rhs.m_val with
  | some val => update_poisoned dbg { s with m_val := val } rhs.is_invalid
  | none => update_poisoned dbg s true

/-- Rust `DivAssign<T> for SafeIntegral`. -/
def div_assign_raw (dbg : Bool) (t : Ty) (s : SafeIntegral) (rhs : Int) : SafeIntegral :=
  match divChecked t s.m_val rhs with
  | some val => mark_as_unchecked dbg { s with m_val := val }
  | none => update_poisoned dbg s true

/-- Rust `RemAssign for SafeIntegral`. -/
def rem_assign (dbg : Bool) (t : Ty) (s rhs : SafeIntegral) : SafeIntegral :=
  match remChecked t s.m_val rhs.m_val with
  | some val => update_poisoned dbg { s with m_val := val } rhs.is_invalid
  | none => update_poisoned dbg s true

/-- Rust `RemAssign<T> for SafeIntegral`. -/
def rem_assign_raw (dbg : Bool) (t : Ty) (s : SafeIntegral) (rhs : Int) : SafeIntegral :=
  match remChecked t s.m_val rhs with
  | some val => mark_as_unchecked dbg { s with m_val := val }
  | none => update_poisoned dbg s true

/-- Rust `ShlAssign<SafeIntegral<u32>>` (unsigned widths): wrapping shift,
poison merged from the shift amount, then `mark_as_checked_if_valid`. -/
def shl_assign (dbg : Bool) (t : Ty) (s rhs : SafeIntegral) : SafeIntegral :=
  mark_as_checked_if_valid dbg
    (update_poisoned dbg { s with m_val := shlWrapping t s.m_val rhs.m_val }
      rhs.is_invalid)

/-- Rust `ShlAssign<u32>` (raw shift amount): only the stored value changes;
neither flag is touched. -/
def shl_assign_raw (t : Ty) (s : SafeIntegral) (rhs : Int) : SafeIntegral :=
  { s with m_val := shlWrapping t s.m_val rhs }

/-- Rust `ShrAssign<SafeIntegral<u32>>`. -/
def shr_assign (dbg : Bool) (t : Ty) (s rhs : SafeIntegral) : SafeIntegral :=
  mark_as_checked_if_valid dbg
    (update_poisoned dbg { s with m_val := shrWrapping t s.m_val rhs.m_val }
      rhs.is_invalid)

/-- Rust `ShrAssign<u32>` (raw shift amount): flags untouched. -/
def shr_assign_raw (t : Ty) (s : SafeIntegral) (rhs : Int) : SafeIntegral :=
  { s with m_val := shrWrapping t s.m_val rhs }

/-- Rust `BitAndAssign` (safe right-hand side). -/
def bitand_assign (dbg : Bool) (s rhs : SafeIntegral) : SafeIntegral :=
  mark_as_checked_if_valid dbg
    (update_poisoned dbg { s with m_val := Int.land s.m_val rhs.m_val }
      rhs.is_invalid)

/-- Rust `BitAndAssign<T>` (raw right-hand side): flags untouched. -/
def bitand_assign_raw (s : SafeIntegral) (rhs : Int) : SafeIntegral :=
  { s with m_val := Int.land s.m_val rhs }

/-- Rust `BitOrAssign` (safe right-hand side). -/
def bitor_assign (dbg : Bool) (s rhs : SafeIntegral) : SafeIntegral :=
  mark_as_checked_if_valid dbg
    (update_poisoned dbg { s with m_val := Int.lor s.m_val rhs.m_val }
      rhs.is_invalid)

/-- Rust `BitOrAssign<T>` (raw right-hand side): flags untouched. -/
def bitor_assign_raw (s : SafeIntegral) (rhs : Int) : SafeIntegral :=
  { s with m_val := Int.lor s.m_val rhs }

/-- Rust `BitXorAssign` (safe right-hand side). -/
def bitxor_assign (dbg : Bool) (s rhs : SafeIntegral) : SafeIntegral :=
  mark_as_checked_if_valid dbg
    (update_poisoned dbg { s with m_val := Int.xor s.m_val rhs.m_val }
      rhs.is_invalid)

/-- Rust `BitXorAssign<T>` (raw right-hand side): flags untouched. -/
def bitxor_assign_raw (s : SafeIntegral) (rhs : Int) : SafeIntegral :=
  { s with m_val := Int.xor s.m_val rhs }

end SafeIntegral

/-- The five arithmetic operators of the claim set. -/
inductive ArithOp where
  | add | sub | mul | div | rem
deriving DecidableEq, Repr

/-- The checked primitive behind each arithmetic operator. -/
def arithChecked : ArithOp → Ty → Int → Int → Option Int
  | .add => addChecked
  | .sub => subChecked
  | .mul => mulChecked
  | .div => divChecked
  | .rem => remChecked

/-- Dispatch to the `op_assign` impl of the operator (safe right-hand
side).  The binary forms clone and delegate to these, so this covers
both the binary and the compound-assignment form. -/
def arithAssign (op : ArithOp) (dbg : Bool) (t : Ty) (a b : SafeIntegral) : SafeIntegral :=
  match op with
  | .add => a.add_assign dbg t b
  | .sub => a.sub_assign dbg t b
  | .mul => a.mul_assign dbg t b
  | .div => a.div_assign dbg t b
  | .rem => a.rem_assign dbg t b

/-- Dispatch to the `op_assign` impl of the operator (raw right-hand
side). -/
def arithAssignRaw (op : ArithOp) (dbg : Bool) (t : Ty) (a : SafeIntegral) (b : Int) :
    SafeIntegral :=
  match op with
  | .add => a.add_assign_raw dbg t b
  | .sub => a.sub_assign_raw dbg t b
  | .mul => a.mul_assign_raw dbg t b
  | .div => a.div_assign_raw dbg t b
  | .rem => a.rem_assign_raw dbg t b

/-!
The `into_*` conversion probes of `integer.rs`, one arm per
(source width, destination width) pair, each the transliteration of the
corresponding Rust method.  `Ty.wrap .umx v` renders `self as usize`,
`Ty.wrap .i64 v` renders `self as i64`, and the guards compare against
the same `T::min_value() as …` / `T::max_value() as …` constants the
source uses.
-/

/-- Rust `intoTy s d v`: the Rust `v.into_d()` for `v` of width `s`. -/
def intoTy : Ty → Ty → Int → Option Int
  | .i8, .i8, v => some (Ty.wrap .i8 v)
  | .i8, .i16, v => some (Ty.wrap .i16 v)
  | .i8, .i32, v => some (Ty.wrap .i32 v)
  | .i8, .i64, v => some (Ty.wrap .i64 v)
  | .i8, .u8, v => if v < 0 then none else some (Ty.wrap .u8 v)
  | .i8, .u16, v => if v < 0 then none else some (Ty.wrap .u16 v)
  | .i8, .u32, v => if v < 0 then none else some (Ty.wrap .u32 v)
  | .i8, .u64, v => if v < 0 then none else some (Ty.wrap .u64 v)
  | .i8, .umx, v => if v < 0 then none else some (Ty.wrap .umx v)
  | .i16, .i8, v =>
      if Ty.wrap .i64 v < -128 then none
      else if Ty.wrap .i64 v > 127 then none
      else some (Ty.wrap .i8 v)
  | .i16, .i16, v => some (Ty.wrap .i16 v)
  | .i16, .i32, v => some (Ty.wrap .i32 v)
  | .i16, .i64, v => some (Ty.wrap .i64 v)
  | .i16, .u8, v =>
      if v < 0 then none
      else if Ty.wrap .umx v > 255 then none
      else some (Ty.wrap .u8 v)
  | .i16, .u16, v => if v < 0 then none else some (Ty.wrap .u16 v)
  | .i16, .u32, v => if v < 0 then none else some (Ty.wrap .u32 v)
  | .i16, .u64, v => if v < 0 then none else some (Ty.wrap .u64 v)
  | .i16, .umx, v => if v < 0 then none else some (Ty.wrap .umx v)
  | .i32, .i8, v =>
      if Ty.wrap .i64 v < -128 then none
      else if Ty.wrap .i64 v > 127 then none
      else some (Ty.wrap .i8 v)
  | .i32, .i16, v =>
      if Ty.wrap .i64 v < -32768 then none
      else if Ty.wrap .i64 v > 32767 then none
      else some (Ty.wrap .i16 v)
  | .i32, .i32, v => some (Ty.wrap .i32 v)
  | .i32, .i64, v => some (Ty.wrap .i64 v)
  | .i32, .u8, v =>
      if v < 0 then none
      else if Ty.wrap .umx v > 255 then none
      else some (Ty.wrap .u8 v)
  | .i32, .u16, v =>
      if v < 0 then none
      else if Ty.wrap .umx v > 65535 then none
      else some (Ty.wrap .u16 v)
  | .i32, .u32, v => if v < 0 then none else some (Ty.wrap .u32 v)
  | .i32, .u64, v => if v < 0 then none else some (Ty.wrap .u64 v)
  | .i32, .umx, v => if v < 0 then none else some (Ty.wrap .umx v)
  | .i64, .i8, v =>
      if Ty.wrap .i64 v < -128 then none
      else if Ty.wrap .i64 v > 127 then none
      else some (Ty.wrap .i8 v)
  | .i64, .i16, v =>
      if Ty.wrap .i64 v < -32768 then none
      else if Ty.wrap .i64 v > 32767 then none
      else some (Ty.wrap .i16 v)
  | .i64, .i32, v =>
      if Ty.wrap .i64 v < -2147483648 then none
      else if Ty.wrap .i64 v > 2147483647 then none
      else some (Ty.wrap .i32 v)
  | .i64, .i64, v => some (Ty.wrap .i64 v)
  | .i64, .u8, v =>
      if v < 0 then none
      else if Ty.wrap .umx v > 255 then none
      else some (Ty.wrap .u8 v)
  | .i64, .u16, v =>
      if v < 0 then none
      else if Ty.wrap .umx v > 65535 then none
      else some (Ty.wrap .u16 v)
  | .i64, .u32, v =>
      if v < 0 then none
      else if Ty.wrap .umx v > 4294967295 then none
      else some (Ty.wrap .u32 v)
  | .i64, .u64, v => if v < 0 then none else some (Ty.wrap .u64 v)
  | .i64, .umx, v => if v < 0 then none else some (Ty.wrap .umx v)
  | .u8, .i8, v =>
      if Ty.wrap .umx v > 127 then none else some (Ty.wrap .i8 v)
  | .u8, .i16, v => some (Ty.wrap .i16 v)
  | .u8, .i32, v => some (Ty.wrap .i32 v)
  | .u8, .i64, v => some (Ty.wrap .i64 v)
  | .u8, .u8, v => some (Ty.wrap .u8 v)
  | .u8, .u16, v => some (Ty.wrap .u16 v)
  | .u8, .u32, v => some (Ty.wrap .u32 v)
  | .u8, .u64, v => some (Ty.wrap .u64 v)
  | .u8, .umx, v => some (Ty.wrap .umx v)
  | .u16, .i8, v =>
      if Ty.wrap .umx v > 127 then none else some (Ty.wrap .i8 v)
  | .u16, .i16, v =>
      if Ty.wrap .umx v > 32767 then none else some (Ty.wrap .i16 v)
  | .u16, .i32, v => some (Ty.wrap .i32 v)
  | .u16, .i64, v => some (Ty.wrap .i64 v)
  | .u16, .u8, v =>
      if Ty.wrap .umx v > 255 then none else some (Ty.wrap .u8 v)
  | .u16, .u16, v => some (Ty.wrap .u16 v)
  | .u16, .u32, v => some (Ty.wrap .u32 v)
  | .u16, .u64, v => some (Ty.wrap .u64 v)
  | .u16, .umx, v => some (Ty.wrap .umx v)
  | .u32, .i8, v =>
      if Ty.wrap .umx v > 127 then none else some (Ty.wrap .i8 v)
  | .u32, .i16, v =>
      if Ty.wrap .umx v > 32767 then none else some (Ty.wrap .i16 v)
  | .u32, .i32, v =>
      if Ty.wrap .umx v > 2147483647 then none else some (Ty.wrap .i32 v)
  | .u32, .i64, v => some (Ty.wrap .i64 v)
  | .u32, .u8, v =>
      if Ty.wrap .umx v > 255 then none else some (Ty.wrap .u8 v)
  | .u32, .u16, v =>
      if Ty.wrap .umx v > 65535 then none else some (Ty.wrap .u16 v)
  | .u32, .u32, v => some (Ty.wrap .u32 v)
  | .u32, .u64, v => some (Ty.wrap .u64 v)
  | .u32, .umx, v => some (Ty.wrap .umx v)
  | .u64, .i8, v =>
      if Ty.wrap .umx v > 127 then none else some (Ty.wrap .i8 v)
  | .u64, .i16, v =>
      if Ty.wrap .umx v > 32767 then none else some (Ty.wrap .i16 v)
  | .u64, .i32, v =>
      if Ty.wrap .umx v > 2147483647 then none else some (Ty.wrap .i32 v)
  | .u64, .i64, v =>
      if Ty.wrap .umx v > 9223372036854775807 then none else some (Ty.wrap .i64 v)
  | .u64, .u8, v =>
      if Ty.wrap .umx v > 255 then none else some (Ty.wrap .u8 v)
  | .u64, .u16, v =>
      if Ty.wrap .umx v > 65535 then none else some (Ty.wrap .u16 v)
  | .u64, .u32, v =>
      if Ty.wrap .umx v > 4294967295 then none else some (Ty.wrap .u32 v)
  | .u64, .u64, v => some (Ty.wrap .u64 v)
  | .u64, .umx, v => some (Ty.wrap .umx v)
  | .umx, .i8, v =>
      if Ty.wrap .umx v > 127 then none else some (Ty.wrap .i8 v)
  | .umx, .i16, v =>
      if Ty.wrap .umx v > 32767 then none else some (Ty.wrap .i16 v)
  | .umx, .i32, v =>
      if Ty.wrap .umx v > 2147483647 then none else some (Ty.wrap .i32 v)
  | .umx, .i64, v =>
      if Ty.wrap .umx v > 9223372036854775807 then none else some (Ty.wrap .i64 v)
  | .umx, .u8, v =>
      if Ty.wrap .umx v > 255 then none else some (Ty.wrap .u8 v)
  | .umx, .u16, v =>
      if Ty.wrap .umx v > 65535 then none else some (Ty.wrap .u16 v)
  | .umx, .u32, v =>
      if Ty.wrap .umx v > 4294967295 then none else some (Ty.wrap .u32 v)
  | .umx, .u64, v => some (Ty.wrap .u64 v)
  | .umx, .umx, v => some (Ty.wrap .umx v)

/-- The checked conversion of `convert.rs`: `to_d(other)` for a
`SafeIntegral` of width `s` — `safe_integral_to_d` composed with the
`into_d` probe and `new_from_option_with_flags_from`.  A raw-integer
source is the `other = SafeIntegral.new v` instance (its
`into_safe_integral()` is `SafeIntegral::new(self)`). -/
def to_conv (s d : Ty) (other : SafeIntegral) : SafeIntegral :=
  SafeIntegral.new_from_option_with_flags_from (intoTy s d other.m_val) other

/-!
`SafeIdx` (`safe_idx.rs`) and `to_idx` (`convert.rs`).
-/

/-- The `SafeIdx` struct: a `usize` value plus a poison flag. -/
structure SafeIdx where
  m_val : Int
  m_poisoned : Bool
deriving DecidableEq, Repr

namespace SafeIdx

/-- Rust `SafeIdx::new_from(val, sloc)`: in debug builds an invalid source
hits `bsl::assert` (diverging, hence `none`); otherwise — and always in
release builds — the value and poison state are copied over. -/
def new_from (dbg : Bool) (val : SafeIntegral) : Option SafeIdx :=
  if dbg then
    if val.is_invalid then none
    else some { m_val := val.m_val, m_poisoned := val.is_invalid }
  else some { m_val := val.m_val, m_poisoned := val.is_invalid }

end SafeIdx

/-- Rust `to_idx(other)` for a source of width `s`:
`SafeIdx::new_from(to_umx(other), here())`. -/
def to_idx (s : Ty) (dbg : Bool) (other : SafeIntegral) : Option SafeIdx :=
  SafeIdx.new_from dbg (to_conv s .umx other)

/-!
`merge_umx_with_u8/u16/u32` (`convert.rs`): splice the low bits of a
pointer-width value.
-/

/-- Rust `merge_umx_with_u8(upper, lower)`:
`(upper & 0xFFFFFFFFFFFFFF00) | to_umx(lower)`. -/
def merge_umx_with_u8 (dbg : Bool) (upper lower : SafeIntegral) : SafeIntegral :=
  let mask := to_conv .umx .umx (SafeIntegral.new 0xFFFFFFFFFFFFFF00)
  (upper.bitand_assign dbg mask).bitor_assign dbg (to_conv .u8 .umx lower)

/-- Rust `merge_umx_with_u16(upper, lower)`:
`(upper & 0xFFFFFFFFFFFF0000) | to_umx(lower)`. -/
def merge_umx_with_u16 (dbg : Bool) (upper lower : SafeIntegral) : SafeIntegral :=
  let mask := to_conv .umx .umx (SafeIntegral.new 0xFFFFFFFFFFFF0000)
  (upper.bitand_assign dbg mask).bitor_assign dbg (to_conv .u16 .umx lower)

/-- Rust `merge_umx_with_u32(upper, lower)`:
`(upper & 0xFFFFFFFF00000000) | to_umx(lower)`. -/
def merge_umx_with_u32 (dbg : Bool) (upper lower : SafeIntegral) : SafeIntegral :=
  let mask := to_conv .umx .umx (SafeIntegral.new 0xFFFFFFFF00000000)
  (upper.bitand_assign dbg mask).bitor_assign dbg (to_conv .u32 .umx lower)

/-!  Helper lemmas about the contract-checked read.  -/

namespace SafeIntegral

theorem get_with_sloc_none_of_poisoned (s : SafeIntegral) (h : s.m_poisoned = true) :
    s.get_with_sloc true = none := by
  simp [get_with_sloc, h]

theorem get_with_sloc_none_of_unchecked (s : SafeIntegral) (h : s.m_unchecked = true) :
    s.get_with_sloc true = none := by
  cases hp : s.m_poisoned <;> simp [get_with_sloc, h, hp]

end SafeIntegral

/-- C1: In debug builds every contract-checked read of a poisoned
`SafeIntegral` panics — `get`, `is_pos`, `is_zero`, `is_neg`, and
equality or ordering comparison with the poisoned value on either side —
and every such read additionally panics on an unchecked value even when
it is not poisoned (`assert` diverges, modelled as `none`). -/
theorem c1_checked_read_panics :
    (∀ (s r : SafeIntegral) (x : Int), s.m_poisoned = true →
      s.get_with_sloc true = none ∧ s.is_pos true = none ∧ s.is_zero true = none ∧
      s.is_neg true = none ∧
      SafeIntegral.eq_si true s r = none ∧ SafeIntegral.eq_si true r s = none ∧
      SafeIntegral.eq_raw true s x = none ∧
      SafeIntegral.cmp_si true s r = none ∧ SafeIntegral.cmp_si true r s = none ∧
      SafeIntegral.cmp_raw true s x = none) ∧
    (∀ (v r : SafeIntegral) (x : Int), v.m_unchecked = true →
      v.get_with_sloc true = none ∧ v.is_pos true = none ∧ v.is_zero true = none ∧
      v.is_neg true = none ∧
      SafeIntegral.eq_si true v r = none ∧ SafeIntegral.eq_si true r v = none ∧
      SafeIntegral.eq_raw true v x = none ∧
      SafeIntegral.cmp_si true v r = none ∧ SafeIntegral.cmp_si true r v = none ∧
      SafeIntegral.cmp_raw true v x = none) := by
  constructor
  · intro s r x h
    have hg := s.get_with_sloc_none_of_poisoned h
    refine ⟨hg, ?_, ?_, ?_, ?_, ?_, ?_, ?_, ?_, ?_⟩ <;>
      first
        | simp [SafeIntegral.is_pos, SafeIntegral.is_zero, SafeIntegral.is_neg, h]
        | (rcases hr : r.get_with_sloc true with _ | y <;>
            simp [SafeIntegral.eq_si, SafeIntegral.eq_raw, SafeIntegral.cmp_si,
              SafeIntegral.cmp_raw, hg, hr])
  · intro v r x h
    have hg := v.get_with_sloc_none_of_unchecked h
    refine ⟨hg, ?_, ?_, ?_, ?_, ?_, ?_, ?_, ?_, ?_⟩ <;>
      first
        | (cases hp : v.m_poisoned <;>
            simp [SafeIntegral.is_pos, SafeIntegral.is_zero, SafeIntegral.is_neg, h, hp])
        | (rcases hr : r.get_with_sloc true with _ | y <;>
            simp [SafeIntegral.eq_si, SafeIntegral.eq_raw, SafeIntegral.cmp_si,
              SafeIntegral.cmp_raw, hg, hr])

/-- Witness for C1 at concrete inputs: the poisoned `failure()` value
and the valid-but-unchecked result of `magic_1() + magic_1()`. -/
theorem c1_checked_read_panics_witness :
    (SafeIntegral.failure.m_poisoned = true ∧
      SafeIntegral.failure.get_with_sloc true = none) ∧
    ((arithAssign .add true .u64 SafeIntegral.magic_1 SafeIntegral.magic_1).m_unchecked
        = true ∧
      (arithAssign .add true .u64 SafeIntegral.magic_1
          SafeIntegral.magic_1).get_with_sloc true = none) :=
  ⟨⟨by decide,
      (c1_checked_read_panics.1 SafeIntegral.failure (SafeIntegral.new 0) 0 (by decide)).1⟩,
    ⟨by decide,
      (c1_checked_read_panics.2 _ (SafeIntegral.new 0) 0 (by decide)).1⟩⟩

/-- C2: For every arithmetic operator in `{+, -, *, /, %}` on two
`SafeIntegral` operands (binary and compound-assignment forms share the
same `op_assign` code), the result is poisoned iff the left operand is
poisoned, the right operand is poisoned, or the checked primitive
returns no value on the stored raw values. -/
theorem c2_poison_monotonicity (op : ArithOp) (dbg : Bool) (t : Ty)
    (a b : SafeIntegral) :
    (arithAssign op dbg t a b).m_poisoned =
      (a.m_poisoned || b.m_poisoned || (arithChecked op t a.m_val b.m_val).isNone) := by
  cases op <;>
    [rcases h : addChecked t a.m_val b.m_val with _ | v;
     rcases h : subChecked t a.m_val b.m_val with _ | v;
     rcases h : mulChecked t a.m_val b.m_val with _ | v;
     rcases h : divChecked t a.m_val b.m_val with _ | v;
     rcases h : remChecked t a.m_val b.m_val with _ | v] <;>
    cases dbg <;>
    simp [arithAssign, arithChecked, SafeIntegral.add_assign, SafeIntegral.sub_assign,
      SafeIntegral.mul_assign, SafeIntegral.div_assign, SafeIntegral.rem_assign,
      SafeIntegral.update_poisoned, SafeIntegral.is_invalid, h]

/-- C5: `is_poisoned(&mut self)` returns the poison flag and, as its
only side effect, sets `unchecked := poisoned` in debug builds (so the
unchecked flag is cleared iff the value is not poisoned) and does
nothing in release builds; the stored value and poison flag are never
modified.  `is_invalid()` / `is_valid()` take `&self` and merely return
the poison flag, resp. its negation. -/
theorem c5_is_poisoned_side_effect (dbg : Bool) (s : SafeIntegral) :
    (s.is_poisoned dbg).1 = s.m_poisoned ∧
    (s.is_poisoned dbg).2.m_val = s.m_val ∧
    (s.is_poisoned dbg).2.m_poisoned = s.m_poisoned ∧
    (s.is_poisoned true).2.m_unchecked = s.m_poisoned ∧
    (s.is_poisoned false).2 = s ∧
    s.is_invalid = s.m_poisoned ∧
    s.is_valid = !s.m_poisoned := by
  cases dbg <;>
    simp [SafeIntegral.is_poisoned, SafeIntegral.mark_as_checked_if_valid,
      SafeIntegral.is_invalid, SafeIntegral.is_valid]

/-- C8 counterexample: in a release build (`dbg = false`) reading the
poisoned `failure()` value does **not** panic — `bsl::assert` is a
no-op in release builds, so `get` simply returns the stored value 0. -/
theorem c8_counterexample :
    SafeIntegral.failure.m_poisoned = true ∧
    ¬ SafeIntegral.failure.get_with_sloc false = none := by
  decide

/-- C8 (amended): in release builds the whole assert machinery — the
unchecked half *and* the poison-validity half — is compiled away:
`get` on any value, poisoned or not, returns the stored raw value
without panicking, `is_unchecked` is constantly false, and poison
remains queryable through `is_invalid`. -/
theorem c8_release_reads_never_panic (s : SafeIntegral) :
    s.get_with_sloc false = some s.m_val ∧
    s.is_unchecked false = false ∧
    s.is_invalid = s.m_poisoned := by
  simp [SafeIntegral.get_with_sloc, SafeIntegral.is_unchecked, SafeIntegral.is_invalid]

/-- C10: when the checked primitive fails (overflow, underflow, or a
zero divisor), the stored raw value of the result is the left operand's
previous value — only the poison flag (and in debug builds the
unchecked flag) is set.  Holds for all five operators, with both
`SafeIntegral` and raw right-hand sides. -/
theorem c10_failed_op_preserves_value :
    (∀ (op : ArithOp) (dbg : Bool) (t : Ty) (a b : SafeIntegral),
      arithChecked op t a.m_val b.m_val = none →
        (arithAssign op dbg t a b).m_val = a.m_val ∧
        (arithAssign op dbg t a b).m_poisoned = true ∧
        (arithAssign op dbg t a b).m_unchecked = (if dbg then true else a.m_unchecked)) ∧
    (∀ (op : ArithOp) (dbg : Bool) (t : Ty) (a : SafeIntegral) (b : Int),
      arithChecked op t a.m_val b = none →
        (arithAssignRaw op dbg t a b).m_val = a.m_val ∧
        (arithAssignRaw op dbg t a b).m_poisoned = true ∧
        (arithAssignRaw op dbg t a b).m_unchecked = (if dbg then true else a.m_unchecked)) := by
  constructor
  · intro op dbg t a b h
    cases op <;>
      simp only [arithChecked] at h <;>
      cases dbg <;>
      simp [arithAssign, SafeIntegral.add_assign, SafeIntegral.sub_assign,
        SafeIntegral.mul_assign, SafeIntegral.div_assign, SafeIntegral.rem_assign,
        SafeIntegral.update_poisoned, h]
  · intro op dbg t a b h
    cases op <;>
      simp only [arithChecked] at h <;>
      cases dbg <;>
      simp [arithAssignRaw, SafeIntegral.add_assign_raw, SafeIntegral.sub_assign_raw,
        SafeIntegral.mul_assign_raw, SafeIntegral.div_assign_raw,
        SafeIntegral.rem_assign_raw, SafeIntegral.update_poisoned, h]

/-- C3 counterexample: `magic_1() + magic_1()` (for `u64`) is valid but
unchecked; shifting it by a **raw** `u32` amount (`ShlAssign<u32>` only
assigns `m_val` and touches neither flag) leaves it unchecked, so
`is_checked()` is false, contradicting the claim that every successful
shift yields `is_checked() == true`. -/
theorem c3_counterexample :
    (arithAssign .add true .u64 SafeIntegral.magic_1 SafeIntegral.magic_1).is_valid
        = true ∧
    ¬ (SafeIntegral.shl_assign_raw .u64
        (arithAssign .add true .u64 SafeIntegral.magic_1 SafeIntegral.magic_1)
        1).is_checked true = true := by
  decide

/-- C3 (amended): in debug builds every arithmetic operator (safe or
raw right-hand side) forces `is_checked() == false`; shift and bitwise
operators with a `SafeIntegral` right-hand side yield
`is_checked() == true` whenever both operands are valid; but shift and
bitwise operators with a **raw** right-hand side leave both flags
entirely unchanged, so their result is checked only if the left operand
already was. -/
theorem c3_unchecked_forcing_amended :
    (∀ (op : ArithOp) (t : Ty) (a b : SafeIntegral) (x : Int),
      (arithAssign op true t a b).is_checked true = false ∧
      (arithAssignRaw op true t a x).is_checked true = false) ∧
    (∀ (t : Ty) (a b : SafeIntegral),
      a.m_poisoned = false → b.m_poisoned = false →
        (a.shl_assign true t b).is_checked true = true ∧
        (a.shr_assign true t b).is_checked true = true ∧
        (a.bitand_assign true b).is_checked true = true ∧
        (a.bitor_assign true b).is_checked true = true ∧
        (a.bitxor_assign true b).is_checked true = true) ∧
    (∀ (t : Ty) (a : SafeIntegral) (x : Int),
      (SafeIntegral.shl_assign_raw t a x).m_unchecked = a.m_unchecked ∧
      (SafeIntegral.shl_assign_raw t a x).m_poisoned = a.m_poisoned ∧
      (SafeIntegral.shr_assign_raw t a x).m_unchecked = a.m_unchecked ∧
      (SafeIntegral.shr_assign_raw t a x).m_poisoned = a.m_poisoned ∧
      (a.bitand_assign_raw x).m_unchecked = a.m_unchecked ∧
      (a.bitand_assign_raw x).m_poisoned = a.m_poisoned ∧
      (a.bitor_assign_raw x).m_unchecked = a.m_unchecked ∧
      (a.bitor_assign_raw x).m_poisoned = a.m_poisoned ∧
      (a.bitxor_assign_raw x).m_unchecked = a.m_unchecked ∧
      (a.bitxor_assign_raw x).m_poisoned = a.m_poisoned) := by
  refine ⟨?_, ?_, ?_⟩
  · intro op t a b x
    cases op
    case add =>
      constructor
      · rcases h : addChecked t a.m_val b.m_val with _ | v <;>
          simp [arithAssign, SafeIntegral.add_assign, h, SafeIntegral.update_poisoned,
            SafeIntegral.is_checked, SafeIntegral.is_unchecked]
      · rcases h : addChecked t a.m_val x with _ | v <;>
          simp [arithAssignRaw, SafeIntegral.add_assign_raw, h,
            SafeIntegral.update_poisoned, SafeIntegral.mark_as_unchecked,
            SafeIntegral.is_checked, SafeIntegral.is_unchecked]
    case sub =>
      constructor
      · rcases h : subChecked t a.m_val b.m_val with _ | v <;>
          simp [arithAssign, SafeIntegral.sub_assign, h, SafeIntegral.update_poisoned,
            SafeIntegral.is_checked, SafeIntegral.is_unchecked]
      · rcases h : subChecked t a.m_val x with _ | v <;>
          simp [arithAssignRaw, SafeIntegral.sub_assign_raw, h,
            SafeIntegral.update_poisoned, SafeIntegral.mark_as_unchecked,
            SafeIntegral.is_checked, SafeIntegral.is_unchecked]
    case mul =>
      constructor
      · rcases h : mulChecked t a.m_val b.m_val with _ | v <;>
          simp [arithAssign, SafeIntegral.mul_assign, h, SafeIntegral.update_poisoned,
            SafeIntegral.is_checked, SafeIntegral.is_unchecked]
      · rcases h : mulChecked t a.m_val x with _ | v <;>
          simp [arithAssignRaw, SafeIntegral.mul_assign_raw, h,
            SafeIntegral.update_poisoned, SafeIntegral.mark_as_unchecked,
            SafeIntegral.is_checked, SafeIntegral.is_unchecked]
    case div =>
      constructor
      · rcases h : divChecked t a.m_val b.m_val with _ | v <;>
          simp [arithAssign, SafeIntegral.div_assign, h, SafeIntegral.update_poisoned,
            SafeIntegral.is_checked, SafeIntegral.is_unchecked]
      · rcases h : divChecked t a.m_val x with _ | v <;>
          simp [arithAssignRaw, SafeIntegral.div_assign_raw, h,
            SafeIntegral.update_poisoned, SafeIntegral.mark_as_unchecked,
            SafeIntegral.is_checked, SafeIntegral.is_unchecked]
    case rem =>
      constructor
      · rcases h : remChecked t a.m_val b.m_val with _ | v <;>
          simp [arithAssign, SafeIntegral.rem_assign, h, SafeIntegral.update_poisoned,
            SafeIntegral.is_checked, SafeIntegral.is_unchecked]
      · rcases h : remChecked t a.m_val x with _ | v <;>
          simp [arithAssignRaw, SafeIntegral.rem_assign_raw, h,
            SafeIntegral.update_poisoned, SafeIntegral.mark_as_unchecked,
            SafeIntegral.is_checked, SafeIntegral.is_unchecked]
  · intro t a b ha hb
    refine ⟨?_, ?_, ?_, ?_, ?_⟩ <;>
      simp [SafeIntegral.shl_assign, SafeIntegral.shr_assign,
        SafeIntegral.bitand_assign, SafeIntegral.bitor_assign,
        SafeIntegral.bitxor_assign, SafeIntegral.update_poisoned,
        SafeIntegral.mark_as_checked_if_valid, SafeIntegral.is_checked,
        SafeIntegral.is_unchecked, SafeIntegral.is_invalid, ha, hb]
  · intro t a x
    simp [SafeIntegral.shl_assign_raw, SafeIntegral.shr_assign_raw,
      SafeIntegral.bitand_assign_raw, SafeIntegral.bitor_assign_raw,
      SafeIntegral.bitxor_assign_raw]

/-- Witness for C3 (amended), at `u64` values 5 and 3: a safe-rhs shift
of valid operands is checked, and an arithmetic sum is unchecked. -/
theorem c3_unchecked_forcing_amended_witness :
    ((SafeIntegral.new 5).shl_assign true .u64 (SafeIntegral.new 3)).is_checked true
        = true ∧
    (arithAssign .add true .u64 (SafeIntegral.new 5)
        (SafeIntegral.new 3)).is_checked true = false :=
  ⟨(c3_unchecked_forcing_amended.2.1 .u64 (SafeIntegral.new 5) (SafeIntegral.new 3)
      (by decide) (by decide)).1,
    (c3_unchecked_forcing_amended.1 .add .u64 (SafeIntegral.new 5)
        (SafeIntegral.new 3) 0).1⟩

/-- For an in-range source value, each `into_*` probe returns `None`
exactly when the value is not representable in the destination width
(sign loss or magnitude overflow). -/
theorem intoTy_eq_none_iff (s d : Ty) (v : Int) (hv : s.inRange v) :
    intoTy s d v = none ↔ ¬ d.inRange v := by
  cases s <;> cases d <;>
    (simp only [intoTy]
     simp [Ty.inRange, Ty.minVal, Ty.maxVal, Ty.wrap, Ty.isSigned, Ty.modulus]
       at hv ⊢) <;>
    omega

/-- C4: for every `to_i8 … to_umx` conversion applied to a
`SafeIntegral` source of any width (a raw-integer source is the
`SafeIntegral.new v` instance, since `into_safe_integral()` on a raw
integer is `SafeIntegral::new(self)`), the result is poisoned iff the
source was poisoned or its numeric value is not exactly representable
in the destination width. -/
theorem c4_conversion_poison_iff (s d : Ty) (v : Int) (p u : Bool)
    (hv : s.inRange v) :
    (to_conv s d { m_val := v, m_poisoned := p, m_unchecked := u }).m_poisoned
        = true ↔ (p = true ∨ ¬ d.inRange v) := by
  rcases h : intoTy s d v with _ | w
  · simp only [to_conv, SafeIntegral.new_from_option_with_flags_from, h]
    have := (intoTy_eq_none_iff s d v hv).mp h
    simp [this]
  · simp only [to_conv, SafeIntegral.new_from_option_with_flags_from, h]
    have : ¬ intoTy s d v = none := by simp [h]
    have hfit : d.inRange v := by
      by_contra hc
      exact this ((intoTy_eq_none_iff s d v hv).mpr hc)
    simp [hfit]

/-- Witness for C4: `SafeI8::magic_neg_1()` (value −1, valid `i8`)
converted via `to_u8` yields a poisoned `SafeU8`. -/
theorem c4_conversion_poison_iff_witness :
    Ty.inRange .i8 (-1) ∧
    (to_conv .i8 .u8 SafeIntegral.magic_neg_1).m_poisoned = true :=
  ⟨by decide,
    (c4_conversion_poison_iff .i8 .u8 (-1) false false (by decide)).2
      (Or.inr (by decide))⟩

/-- C6 counterexample: both operands are valid (`magic_1() + magic_1()`
and `magic_0()`), yet `max` panics in a debug build — the comparison
`*self > rhs` inside `max` reads the unchecked left operand through
`get_with_sloc`, which asserts.  This contradicts "this never panics". -/
theorem c6_counterexample :
    (arithAssign .add true .u64 SafeIntegral.magic_1 SafeIntegral.magic_1).is_valid
        = true ∧
    SafeIntegral.magic_0.is_valid = true ∧
    SafeIntegral.max_si true
        (arithAssign .add true .u64 SafeIntegral.magic_1 SafeIntegral.magic_1)
        SafeIntegral.magic_0 = none := by
  decide

/-- C6 (amended): `max`/`min` return `failure()` without panicking and
without touching either operand whenever an operand is invalid (the
`is_invalid` early-outs run before any read); when both operands are
valid **and checked in debug builds**, they return the operand with the
greater (resp. lesser) stored value, again without panicking — the
returned value is one of the operands, flags untouched, so no checked
obligation is consumed.  But a valid-yet-unchecked operand makes the
underlying comparison panic in debug builds. -/
theorem c6_max_min_amended (dbg : Bool) (a b : SafeIntegral) :
    (a.m_poisoned = true →
      SafeIntegral.max_si dbg a b = some SafeIntegral.failure ∧
      SafeIntegral.min_si dbg a b = some SafeIntegral.failure) ∧
    (b.m_poisoned = true →
      SafeIntegral.max_si dbg a b = some SafeIntegral.failure ∧
      SafeIntegral.min_si dbg a b = some SafeIntegral.failure) ∧
    (a.m_poisoned = false → b.m_poisoned = false →
      a.is_checked dbg = true → b.is_checked dbg = true →
      SafeIntegral.max_si dbg a b = some (if b.m_val < a.m_val then a else b) ∧
      SafeIntegral.min_si dbg a b = some (if a.m_val < b.m_val then a else b)) := by
  refine ⟨?_, ?_, ?_⟩
  · intro ha
    simp [SafeIntegral.max_si, SafeIntegral.min_si, SafeIntegral.is_invalid, ha]
  · intro hb
    by_cases ha : a.m_poisoned = true <;>
      simp [SafeIntegral.max_si, SafeIntegral.min_si, SafeIntegral.is_invalid, ha, hb]
  · intro ha hb hca hcb
    have hga : a.get_with_sloc dbg = some a.m_val := by
      cases dbg <;>
        simp [SafeIntegral.get_with_sloc, SafeIntegral.is_checked,
          SafeIntegral.is_unchecked, ha] at hca ⊢ <;>
        simp [hca]
    have hgb : b.get_with_sloc dbg = some b.m_val := by
      cases dbg <;>
        simp [SafeIntegral.get_with_sloc, SafeIntegral.is_checked,
          SafeIntegral.is_unchecked, hb] at hcb ⊢ <;>
        simp [hcb]
    constructor
    · simp only [SafeIntegral.max_si, SafeIntegral.is_invalid, ha, hb,
        Bool.false_eq_true, if_false, SafeIntegral.cmp_si, hga, hgb,
        Option.some_bind, Option.map_some']
      by_cases h : b.m_val < a.m_val
      · rw [if_pos (compare_gt_iff_gt.mpr h), if_pos h]
      · rw [if_neg ?_, if_neg h]
        intro hc
        exact h (compare_gt_iff_gt.mp hc)
    · simp only [SafeIntegral.min_si, SafeIntegral.is_invalid, ha, hb,
        Bool.false_eq_true, if_false, SafeIntegral.cmp_si, hga, hgb,
        Option.some_bind, Option.map_some']
      by_cases h : a.m_val < b.m_val
      · rw [if_pos (compare_lt_iff_lt.mpr h), if_pos h]
      · rw [if_neg ?_, if_neg h]
        intro hc
        exact h (compare_lt_iff_lt.mp hc)

/-- Witness for C6 (amended): `max` of the checked values 5 and 3
returns 5; `max` against `failure()` returns `failure()`. -/
theorem c6_max_min_amended_witness :
    SafeIntegral.max_si true (SafeIntegral.new 5) (SafeIntegral.new 3)
        = some (SafeIntegral.new 5) ∧
    SafeIntegral.max_si true SafeIntegral.failure (SafeIntegral.new 3)
        = some SafeIntegral.failure :=
  ⟨by
      have h := (c6_max_min_amended true (SafeIntegral.new 5) (SafeIntegral.new 3)).2.2
        (by decide) (by decide) (by decide) (by decide)
      simpa using h.1,
    ((c6_max_min_amended true SafeIntegral.failure (SafeIntegral.new 3)).1
        (by decide)).1⟩

/-- C7: in debug builds `SafeIdx::new_from` panics immediately on an
invalid source (so a `SafeIdx` obtained from a safe-integral source is
never poisoned), and `to_idx` panics whenever the `umx`-converted source
is invalid. -/
theorem c7_new_from_panics_on_invalid :
    (∀ (v : SafeIntegral), v.m_poisoned = true → SafeIdx.new_from true v = none) ∧
    (∀ (v : SafeIntegral) (idx : SafeIdx),
      SafeIdx.new_from true v = some idx → idx.m_poisoned = false) ∧
    (∀ (s : Ty) (other : SafeIntegral),
      (to_conv s .umx other).m_poisoned = true → to_idx s true other = none) := by
  refine ⟨?_, ?_, ?_⟩
  · intro v h
    simp [SafeIdx.new_from, SafeIntegral.is_invalid, h]
  · intro v idx h
    by_cases hv : v.m_poisoned = true
    · simp [SafeIdx.new_from, SafeIntegral.is_invalid, hv] at h
    · simp only [Bool.not_eq_true] at hv
      simp [SafeIdx.new_from, SafeIntegral.is_invalid, hv] at h
      simp [← h]
  · intro s other h
    simp [to_idx, SafeIdx.new_from, SafeIntegral.is_invalid, h]

/-- Witness for C7: `SafeIdx::new_from(SafeUMx::failure(), loc)`
panics. -/
theorem c7_new_from_panics_on_invalid_witness :
    SafeIdx.new_from true SafeIntegral.failure = none :=
  c7_new_from_panics_on_invalid.1 SafeIntegral.failure (by decide)

/-!  Bit-splicing helper lemmas for the `merge_umx_with_*` family.  -/

theorem land_split {k : ℕ} (a b c d : ℕ) (hb : b < 2 ^ k) (hd : d < 2 ^ k) :
    (2 ^ k * a + b) &&& (2 ^ k * c + d) = 2 ^ k * (a &&& c) + (b &&& d) := by
  apply Nat.eq_of_testBit_eq
  intro j
  have hbd : (b &&& d) < 2 ^ k := lt_of_le_of_lt Nat.and_le_left hb
  rw [Nat.testBit_and, Nat.testBit_mul_pow_two_add _ hb, Nat.testBit_mul_pow_two_add _ hd,
    Nat.testBit_mul_pow_two_add _ hbd]
  by_cases h : j < k
  · simp [h, Nat.testBit_and]
  · simp [h, Nat.testBit_and]

theorem land_high_mask {k w : ℕ} (hk : k ≤ w) (u : ℕ) (hu : u < 2 ^ w) :
    u &&& (2 ^ k * (2 ^ (w - k) - 1)) = 2 ^ k * (u / 2 ^ k) := by
  have hsplit : 2 ^ k * (u / 2 ^ k) + u % 2 ^ k = u := Nat.div_add_mod u (2 ^ k)
  have hq : u / 2 ^ k < 2 ^ (w - k) := by
    rw [Nat.div_lt_iff_lt_mul (Nat.two_pow_pos k)]
    calc u < 2 ^ w := hu
    _ = 2 ^ (w - k) * 2 ^ k := by rw [← pow_add]; congr 1; omega
  calc u &&& (2 ^ k * (2 ^ (w - k) - 1))
      = (2 ^ k * (u / 2 ^ k) + u % 2 ^ k) &&& (2 ^ k * (2 ^ (w - k) - 1) + 0) := by
        rw [hsplit, Nat.add_zero]
    _ = 2 ^ k * ((u / 2 ^ k) &&& (2 ^ (w - k) - 1)) + ((u % 2 ^ k) &&& 0) :=
        land_split _ _ _ _ (Nat.mod_lt u (Nat.two_pow_pos k)) (Nat.two_pow_pos k)
    _ = 2 ^ k * (u / 2 ^ k) := by
        rw [Nat.and_pow_two_sub_one_eq_mod, Nat.and_zero, Nat.add_zero,
          Nat.mod_eq_of_lt hq]

theorem merge_low_bits {k w : ℕ} (hk : k ≤ w) (u l : ℕ) (hu : u < 2 ^ w)
    (hl : l < 2 ^ k) :
    (u &&& (2 ^ k * (2 ^ (w - k) - 1))) ||| l = 2 ^ k * (u / 2 ^ k) + l := by
  rw [land_high_mask hk u hu]
  exact (Nat.mul_add_lt_is_or hl _).symm

theorem int_merge_val {k : ℕ} (hk : k ≤ 64) (u l : ℤ) (hu0 : 0 ≤ u)
    (hu1 : u < 2 ^ 64) (hl0 : 0 ≤ l) (hl1 : l < 2 ^ k) :
    Int.lor (Int.land u (2 ^ k * (2 ^ (64 - k) - 1))) l = 2 ^ k * (u / 2 ^ k) + l := by
  obtain ⟨un, rfl⟩ := Int.eq_ofNat_of_zero_le hu0
  obtain ⟨ln, rfl⟩ := Int.eq_ofNat_of_zero_le hl0
  have hun : un < 2 ^ 64 := by exact_mod_cast hu1
  have hln : ln < 2 ^ k := by exact_mod_cast hl1
  have hmask : ((2 ^ k * (2 ^ (64 - k) - 1) : ℕ) : ℤ) = 2 ^ k * (2 ^ (64 - k) - 1) := by
    have h1 : (1 : ℕ) ≤ 2 ^ (64 - k) := Nat.one_le_two_pow
    push_cast [h1]
    ring
  rw [← hmask,
    show Int.land (↑un) ((2 ^ k * (2 ^ (64 - k) - 1) : ℕ) : ℤ)
        = ((un &&& 2 ^ k * (2 ^ (64 - k) - 1) : ℕ) : ℤ) from rfl,
    show Int.lor ((un &&& 2 ^ k * (2 ^ (64 - k) - 1) : ℕ) : ℤ) (↑ln)
        = (((un &&& 2 ^ k * (2 ^ (64 - k) - 1)) ||| ln : ℕ) : ℤ) from rfl,
    merge_low_bits hk un ln hun hln]
  push_cast [Int.ofNat_div]
  ring

/-- C9: for valid in-range inputs, `merge_umx_with_u8(upper, lower)` is
valid and equals `(upper & 0xFFFFFFFFFFFFFF00) | to_umx(lower)`, which
replaces the low 8 bits of `upper` with `lower` while preserving the
upper bits (`value = 2^8 * (upper / 2^8) + lower`); analogously for
`merge_umx_with_u16` and `merge_umx_with_u32` with 16 and 32 low bits. -/
theorem c9_merge_low_bits (dbg : Bool) :
    (∀ upper lower : SafeIntegral,
      upper.m_poisoned = false → lower.m_poisoned = false →
      0 ≤ upper.m_val → upper.m_val < 2 ^ 64 →
      0 ≤ lower.m_val → lower.m_val < 2 ^ 8 →
        (merge_umx_with_u8 dbg upper lower).m_poisoned = false ∧
        (merge_umx_with_u8 dbg upper lower).m_val
            = Int.lor (Int.land upper.m_val 0xFFFFFFFFFFFFFF00) lower.m_val ∧
        (merge_umx_with_u8 dbg upper lower).m_val
            = 2 ^ 8 * (upper.m_val / 2 ^ 8) + lower.m_val) ∧
    (∀ upper lower : SafeIntegral,
      upper.m_poisoned = false → lower.m_poisoned = false →
      0 ≤ upper.m_val → upper.m_val < 2 ^ 64 →
      0 ≤ lower.m_val → lower.m_val < 2 ^ 16 →
        (merge_umx_with_u16 dbg upper lower).m_poisoned = false ∧
        (merge_umx_with_u16 dbg upper lower).m_val
            = Int.lor (Int.land upper.m_val 0xFFFFFFFFFFFF0000) lower.m_val ∧
        (merge_umx_with_u16 dbg upper lower).m_val
            = 2 ^ 16 * (upper.m_val / 2 ^ 16) + lower.m_val) ∧
    (∀ upper lower : SafeIntegral,
      upper.m_poisoned = false → lower.m_poisoned = false →
      0 ≤ upper.m_val → upper.m_val < 2 ^ 64 →
      0 ≤ lower.m_val → lower.m_val < 2 ^ 32 →
        (merge_umx_with_u32 dbg upper lower).m_poisoned = false ∧
        (merge_umx_with_u32 dbg upper lower).m_val
            = Int.lor (Int.land upper.m_val 0xFFFFFFFF00000000) lower.m_val ∧
        (merge_umx_with_u32 dbg upper lower).m_val
            = 2 ^ 32 * (upper.m_val / 2 ^ 32) + lower.m_val) := by
  refine ⟨?_, ?_, ?_⟩
  · intro upper lower hup hlp hu0 hu1 hl0 hl1
    have hlowval : Ty.wrap .umx lower.m_val = lower.m_val := by
      simp [Ty.wrap, Ty.isSigned, Ty.modulus] <;> omega
    have hm : Ty.wrap .umx (0xFFFFFFFFFFFFFF00 : Int) = 0xFFFFFFFFFFFFFF00 := by decide
    refine ⟨?_, ?_, ?_⟩ <;>
      simp only [merge_umx_with_u8, to_conv, intoTy, hlowval, hm, SafeIntegral.new,
        SafeIntegral.new_from_option_with_flags_from, SafeIntegral.bitand_assign,
        SafeIntegral.bitor_assign, SafeIntegral.update_poisoned,
        SafeIntegral.mark_as_checked_if_valid, SafeIntegral.is_invalid] <;>
      cases dbg <;> simp [hup, hlp] <;>
        · rw [show (0xFFFFFFFFFFFFFF00 : ℤ) = 2 ^ 8 * (2 ^ (64 - 8) - 1) by norm_num]
          exact int_merge_val (by norm_num) _ _ hu0 hu1 hl0 hl1
  · intro upper lower hup hlp hu0 hu1 hl0 hl1
    have hlowval : Ty.wrap .umx lower.m_val = lower.m_val := by
      simp [Ty.wrap, Ty.isSigned, Ty.modulus] <;> omega
    have hm : Ty.wrap .umx (0xFFFFFFFFFFFF0000 : Int) = 0xFFFFFFFFFFFF0000 := by decide
    refine ⟨?_, ?_, ?_⟩ <;>
      simp only [merge_umx_with_u16, to_conv, intoTy, hlowval, hm, SafeIntegral.new,
        SafeIntegral.new_from_option_with_flags_from, SafeIntegral.bitand_assign,
        SafeIntegral.bitor_assign, SafeIntegral.update_poisoned,
        SafeIntegral.mark_as_checked_if_valid, SafeIntegral.is_invalid] <;>
      cases dbg <;> simp [hup, hlp] <;>
        · rw [show (0xFFFFFFFFFFFF0000 : ℤ) = 2 ^ 16 * (2 ^ (64 - 16) - 1) by norm_num]
          exact int_merge_val (by norm_num) _ _ hu0 hu1 hl0 hl1
  · intro upper lower hup hlp hu0 hu1 hl0 hl1
    have hlowval : Ty.wrap .umx lower.m_val = lower.m_val := by
      simp [Ty.wrap, Ty.isSigned, Ty.modulus] <;> omega
    have hm : Ty.wrap .umx (0xFFFFFFFF00000000 : Int) = 0xFFFFFFFF00000000 := by decide
    refine ⟨?_, ?_, ?_⟩ <;>
      simp only [merge_umx_with_u32, to_conv, intoTy, hlowval, hm, SafeIntegral.new,
        SafeIntegral.new_from_option_with_flags_from, SafeIntegral.bitand_assign,
        SafeIntegral.bitor_assign, SafeIntegral.update_poisoned,
        SafeIntegral.mark_as_checked_if_valid, SafeIntegral.is_invalid] <;>
      cases dbg <;> simp [hup, hlp] <;>
        · rw [show (0xFFFFFFFF00000000 : ℤ) = 2 ^ 32 * (2 ^ (64 - 32) - 1) by norm_num]
          exact int_merge_val (by norm_num) _ _ hu0 hu1 hl0 hl1

/-- Witness for C9:
`merge_umx_with_u8(0x1234567890ABCDEF, 0xFF) == 0x1234567890ABCDFF`. -/
theorem c9_merge_low_bits_witness :
    (merge_umx_with_u8 true (SafeIntegral.new 0x1234567890ABCDEF)
        (SafeIntegral.new 0xFF)).m_poisoned = false ∧
    (merge_umx_with_u8 true (SafeIntegral.new 0x1234567890ABCDEF)
        (SafeIntegral.new 0xFF)).m_val = 0x1234567890ABCDFF := by
  have h := (c9_merge_low_bits true).1 (SafeIntegral.new 0x1234567890ABCDEF)
    (SafeIntegral.new 0xFF) (by decide) (by decide) (by decide) (by decide)
    (by decide) (by decide)
  refine ⟨h.1, ?_⟩
  rw [h.2.2]
  decide

/-- Witness for C10: `u8` overflow `255 + 1` in a debug build leaves
the stored value at 255 and sets both flags. -/
theorem c10_failed_op_preserves_value_witness :
    arithChecked .add .u8 (SafeIntegral.new 255).m_val (SafeIntegral.new 1).m_val
        = none ∧
    (arithAssign .add true .u8 (SafeIntegral.new 255) (SafeIntegral.new 1)).m_val
        = (SafeIntegral.new 255).m_val ∧
    (arithAssign .add true .u8 (SafeIntegral.new 255) (SafeIntegral.new 1)).m_poisoned
        = true :=
  ⟨by decide,
    (c10_failed_op_preserves_value.1 .add true .u8 (SafeIntegral.new 255)
        (SafeIntegral.new 1) (by decide)).1,
    (c10_failed_op_preserves_value.1 .add true .u8 (SafeIntegral.new 255)
        (SafeIntegral.new 1) (by decide)).2.1⟩

end BSL
